import Mathlib

/-
Verification of the GCP budget-alert webhook relay (src/main.py) against its
natural-language specification.

The single source file is a Google Cloud Function, `process_budget_alert`,
plus a module-level cold-start block that resolves a Teams webhook URL from
Secret Manager.  This development shallowly embeds that program:

  * JSON values (the output of Python `json.loads`) are the inductive `JValue`,
    with numbers modelled exactly as rationals (the idealisation of Python
    floats on which every concrete value exercised here agrees with binary64
    evaluation);
  * the Python dynamic operations used by the function (`dict.get`,
    subscripting, `*`, truthiness, `format` with `,.0f` / `,.2f` specs,
    `str()`) are embedded as total or `Except`-valued Lean functions;
  * the decode pipeline (`bytes.decode("utf-8")`, `json.loads`,
    `base64.b64decode`) is implemented executably;
  * external effects are oracles: the secret store is a function argument of
    the init block, the network is a function argument of the handler, and the
    handler returns a `HandlerResult` recording the POSTs attempted, whether
    an exception was re-raised to the platform, and the log lines printed.
-/

namespace BudgetAlert

/-- A Python value as produced by `json.loads`: null, bool, number (modelled
as an exact rational), string, list, or string-keyed dict (association list in
insertion order, later keys shadowing earlier ones as in a Python dict).
The three special float values `nan`, `inf` and `ninf` (negative infinity)
are separate constructors because `json.loads` accepts the non-standard
literals `NaN`, `Infinity` and `-Infinity` by default. -/
inductive JValue : Type where
  | null : JValue
  | bool : Bool → JValue
  | num : ℚ → JValue
  | nan : JValue
  | inf : JValue
  | ninf : JValue
  | str : String → JValue
  | arr : List JValue → JValue
  | obj : List (String × JValue) → JValue

/-- Dictionary lookup: the value of the last binding of `k` (Python dicts keep
one binding per key, last writer wins when JSON has duplicate keys). -/
def alistLookup (kvs : List (String × JValue)) (k : String) : Option JValue :=
  (kvs.reverse.find? (fun p => p.1 == k)).map Prod.snd

/-- Result of `d.get(k, default)` on an object with entries `kvs`. -/
def jGetD (kvs : List (String × JValue)) (k : String) (d : JValue) : JValue :=
  (alistLookup kvs k).getD d

/-- Python truthiness of a value (`if x:`): None, False, zero, and empty
containers/strings are falsy. -/
def truthy : JValue → Bool
  | .null => false
  | .bool b => b
  | .num q => if q = 0 then false else true
  | .nan => true
  | .inf => true
  | .ninf => true
  | .str s => if s = "" then false else true
  | .arr xs => if xs.isEmpty then false else true
  | .obj kvs => if kvs.isEmpty then false else true

/-- Product of two rationals, computed through `mkRat` so that it evaluates
by kernel reduction (the ambient `*` on `ℚ` is irreducible). -/
def rMul (a b : ℚ) : ℚ := mkRat (a.num * b.num) (a.den * b.den)

/-- Difference of two rationals, computed through `mkRat`. -/
def rSub (a b : ℚ) : ℚ := mkRat (a.num * b.den - b.num * a.den) (a.den * b.den)

/-- Negation of a rational, computed through `mkRat`. -/
def rNeg (q : ℚ) : ℚ := mkRat (-q.num) q.den

/-- Absolute value of a rational, computed through `mkRat`. -/
def rAbs (q : ℚ) : ℚ := if q < 0 then rNeg q else q

/-- Round a rational to the nearest integer, ties to even — the rounding used
by Python `format` with an `f` presentation type. -/
def roundHalfEven (q : ℚ) : ℤ :=
  let f := Rat.floor q
  let r := rSub q (mkRat f 1)
  if r < mkRat 1 2 then f
  else if mkRat 1 2 < r then f + 1
  else if f % 2 = 0 then f else f + 1

/-- Insert a comma after every third character of a reversed digit list that
still has digits following — helper for the `,` format-spec option. -/
def group3 : List Char → List Char
  | [] => []
  | [a] => [a]
  | [a, b] => [a, b]
  | [a, b, c] => [a, b, c]
  | a :: b :: c :: rest => a :: b :: c :: ',' :: group3 rest

/-- Decimal digits of `n`, most significant first. -/
def natDigits (n : ℕ) : List Char := Nat.toDigits 10 n

/-- Python `format(q, ",.df")` for a rational `q`: round `|q| * 10^d` half to
even, group the integer digits in threes with commas, render `d` fractional
digits, and prefix `-` when the input is negative (Python takes the sign from
the value being formatted, before rounding). -/
def formatFixedQ (d : ℕ) (q : ℚ) : String :=
  let scaled : ℤ := roundHalfEven (rMul (rAbs q) (mkRat (Nat.pow 10 d : ℕ) 1))
  let n : ℕ := scaled.toNat
  let ip : ℕ := n / Nat.pow 10 d
  let fp : ℕ := n % Nat.pow 10 d
  let ipStr : String := ⟨(group3 (natDigits ip).reverse).reverse⟩
  let fpDigits : List Char := natDigits fp
  let fpStr : String := ⟨List.replicate (d - fpDigits.length) '0' ++ fpDigits⟩
  let body : String := if d = 0 then ipStr else ipStr ++ "." ++ fpStr
  if q < 0 then "-" ++ body else body

/-- Decimal rendering of a nonnegative rational less than 1: up to `fuel`
fractional digits, stopping early when the expansion terminates.  Only used to
model `str()` of a number, which no budget-alert field exercises with a
non-terminating expansion. -/
def fracDigits : ℕ → ℚ → List Char
  | 0, _ => []
  | fuel + 1, q =>
    if q = 0 then []
    else
      let q10 := rMul q 10
      let dgt := Rat.floor q10
      Char.ofNat (48 + dgt.toNat) :: fracDigits fuel (rSub q10 (mkRat dgt 1))

/-- Exact decimal rendering of a rational, used to model Python `str()` on
numbers (integers print without a point, terminating decimals in full; the
binary64 shortest-round-trip subtleties of Python float repr are idealised
away, and no claim exercises them). -/
def qRepr (q : ℚ) : String :=
  let neg := q < 0
  let a := rAbs q
  let ip := Rat.floor a
  let fr := rSub a (mkRat ip 1)
  let ipStr : String := ⟨natDigits ip.toNat⟩
  let body :=
    if fr = 0 then ipStr
    else ipStr ++ "." ++ (⟨fracDigits 64 fr⟩ : String)
  if neg then "-" ++ body else body

mutual

/-- Python `repr()` of a JSON-derived value, as used when a value is rendered
inside a container (strings gain quotes).  Quote/escape minutiae are modelled
plainly; no claim exercises container rendering. -/
def pyReprV : JValue → String
  | .null => "None"
  | .bool b => if b then "True" else "False"
  | .num q => qRepr q
  | .nan => "nan"
  | .inf => "inf"
  | .ninf => "-inf"
  | .str s => "\x27" ++ s ++ "\x27"
  | .arr xs => "[" ++ pyReprItems xs ++ "]"
  | .obj kvs => "\x7b" ++ pyReprFields kvs ++ "\x7d"

/-- Comma-separated reprs of list items. -/
def pyReprItems : List JValue → String
  | [] => ""
  | [x] => pyReprV x
  | x :: rest => pyReprV x ++ ", " ++ pyReprItems rest

/-- Comma-separated `key: value` reprs of dict entries. -/
def pyReprFields : List (String × JValue) → String
  | [] => ""
  | [(k, v)] => "\x27" ++ k ++ "\x27: " ++ pyReprV v
  | (k, v) :: rest => "\x27" ++ k ++ "\x27: " ++ pyReprV v ++ ", " ++ pyReprFields rest

end

/-- Python `str()` of a value, the conversion applied by f-string
interpolation `f"...{x}..."` with an empty format spec: identical to `repr`
except that strings print without quotes. -/
def pyStr : JValue → String
  | .str s => s
  | v => pyReprV v

/-- Model of `budget_message.get(key, default)`: succeeds with the stored or default
value on a dict, raises `AttributeError` on any other value. -/
def pyGet (v : JValue) (k : String) (d : JValue) : Except String JValue :=
  match v with
  | .obj kvs => .ok (jGetD kvs k d)
  | _ => .error ("AttributeError: value has no attribute get: " ++ k)

/-- Model of `x[key]` subscripting with a string key: `KeyError` when the key is
missing from a dict, `TypeError` on any non-dict value. -/
def pySubscript (v : JValue) (k : String) : Except String JValue :=
  match v with
  | .obj kvs =>
    match alistLookup kvs k with
    | some w => .ok w
    | none => .error ("KeyError: " ++ k)
  | _ => .error ("TypeError: value is not subscriptable by string: " ++ k)

/-- Model of `x * 100` on a decoded JSON value (line `actual_percent = actual_percent_raw * 100`):
numbers scale, bools coerce to 0/1 then scale, sequences repeat 100 times,
and None/dict raise `TypeError`. -/
def pyMul100 : JValue → Except String JValue
  | .num q => .ok (.num (rMul q 100))
  | .bool b => .ok (.num (if b then 100 else 0))
  | .nan => .ok .nan
  | .inf => .ok .inf
  | .ninf => .ok .ninf
  | .str s => .ok (.str (String.join (List.replicate 100 s)))
  | .arr xs => .ok (.arr (List.flatten (List.replicate 100 xs)))
  | .null => .error "TypeError: unsupported operand type for *: NoneType and int"
  | .obj _ => .error "TypeError: unsupported operand type for *: dict and int"

/-- Model of `format(x, ",.df")` as invoked by `f"{x:,.0f}"` / `f"{x:,.2f}"`: defined
for numbers (and bools, which Python treats as 0/1 here); any other value
raises (`ValueError` for strings, `TypeError` otherwise). -/
def pyFormatFixed (d : ℕ) : JValue → Except String String
  | .num q => .ok (formatFixedQ d q)
  | .bool b => .ok (formatFixedQ d (if b then 1 else 0))
  | .nan => .ok "nan"
  | .inf => .ok "inf"
  | .ninf => .ok "-inf"
  | .str _ => .error "ValueError: unknown format code f for str"
  | _ => .error "TypeError: unsupported format string"

/-- Values the `f` format spec accepts without raising: numbers, bools
(formatted as 0/1) and the special float values (formatted as their names);
everything else raises in `pyFormatFixed`. -/
def pyNumeric : JValue → Bool
  | .num _ => true
  | .bool _ => true
  | .nan => true
  | .inf => true
  | .ninf => true
  | _ => false

/-- Continuation byte test for strict UTF-8. -/
def isCont (b : ℕ) : Bool := 0x80 ≤ b && b ≤ 0xBF

/-- Decode one scalar from the head of a byte list under strict UTF-8 (the
behaviour of Python `bytes.decode("utf-8")`): rejects overlong forms,
surrogates, and out-of-range sequences. -/
def utf8Step : List ℕ → Option (Char × List ℕ)
  | [] => none
  | b :: rest =>
    if b < 0x80 then some (Char.ofNat b, rest)
    else if 0xC2 ≤ b && b ≤ 0xDF then
      match rest with
      | c :: r2 =>
        if isCont c then some (Char.ofNat ((b - 0xC0) * 64 + (c - 0x80)), r2) else none
      | [] => none
    else if b == 0xE0 then
      match rest with
      | c :: d :: r2 =>
        if (0xA0 ≤ c && c ≤ 0xBF) && isCont d then
          some (Char.ofNat ((c - 0x80) * 64 + (d - 0x80)), r2)
        else none
      | _ => none
    else if (0xE1 ≤ b && b ≤ 0xEC) || b == 0xEE || b == 0xEF then
      match rest with
      | c :: d :: r2 =>
        if isCont c && isCont d then
          some (Char.ofNat ((b - 0xE0) * 4096 + (c - 0x80) * 64 + (d - 0x80)), r2)
        else none
      | _ => none
    else if b == 0xED then
      match rest with
      | c :: d :: r2 =>
        if (0x80 ≤ c && c ≤ 0x9F) && isCont d then
          some (Char.ofNat (0xD000 + (c - 0x80) * 64 + (d - 0x80)), r2)
        else none
      | _ => none
    else if b == 0xF0 then
      match rest with
      | c :: d :: e :: r2 =>
        if (0x90 ≤ c && c ≤ 0xBF) && (isCont d && isCont e) then
          some (Char.ofNat ((c - 0x80) * 4096 + (d - 0x80) * 64 + (e - 0x80)), r2)
        else none
      | _ => none
    else if 0xF1 ≤ b && b ≤ 0xF3 then
      match rest with
      | c :: d :: e :: r2 =>
        if isCont c && (isCont d && isCont e) then
          some (Char.ofNat ((b - 0xF0) * 262144 + (c - 0x80) * 4096 + (d - 0x80) * 64 + (e - 0x80)), r2)
        else none
      | _ => none
    else if b == 0xF4 then
      match rest with
      | c :: d :: e :: r2 =>
        if (0x80 ≤ c && c ≤ 0x8F) && (isCont d && isCont e) then
          some (Char.ofNat (0x100000 + (c - 0x80) * 4096 + (d - 0x80) * 64 + (e - 0x80)), r2)
        else none
      | _ => none
    else none

/-- Fuelled loop decoding a whole byte list; each step consumes at least one
byte, so fuel equal to the length suffices. -/
def utf8DecodeAux : ℕ → List ℕ → Option (List Char)
  | _, [] => some []
  | 0, _ :: _ => none
  | fuel + 1, l =>
    match utf8Step l with
    | none => none
    | some (c, rest) => (utf8DecodeAux fuel rest).map (fun cs => c :: cs)

/-- Model of `bytes.decode("utf-8")` with strict error handling: `some` text on
success, `none` on any malformed sequence. -/
def utf8Decode (bytes : List ℕ) : Option String :=
  (utf8DecodeAux bytes.length bytes).map (fun cs => ⟨cs⟩)

/-- Value of a standard base64 alphabet character. -/
def b64CharVal (c : Char) : Option ℕ :=
  let n := c.toNat
  if 65 ≤ n && n ≤ 90 then some (n - 65)
  else if 97 ≤ n && n ≤ 122 then some (n - 71)
  else if 48 ≤ n && n ≤ 57 then some (n + 4)
  else if c == '+' then some 62
  else if c == '/' then some 63
  else none

/-- Model of the non-strict `binascii.a2b_base64` loop that backs
`base64.b64decode`: bytes are emitted as each quad position 1/2/3 character
arrives; characters outside the alphabet are discarded; an `=` at quad
position 0 or 1 is discarded, while pads at quad position 2 or 3 complete the
quad — two pads closing position 2, one closing position 3 — upon which
decoding stops and the remaining input is ignored; a data character resets
the pad count; input that ends mid-quad (position 1, or positions 2/3 without
enough pads) is an error.  Arguments: remaining input, quad position,
carried bits, pads seen at the current position. -/
def a2bBase64 : List Char → ℕ → ℕ → ℕ → Option (List ℕ)
  | [], 0, _, _ => some []
  | [], _ + 1, _, _ => none
  | c :: rest, quadPos, leftchar, pads =>
    if c == '=' then
      if 2 ≤ quadPos then
        if 4 ≤ quadPos + (pads + 1) then some []
        else a2bBase64 rest quadPos leftchar (pads + 1)
      else a2bBase64 rest quadPos leftchar pads
    else
      match b64CharVal c with
      | none => a2bBase64 rest quadPos leftchar pads
      | some v =>
        match quadPos with
        | 0 => a2bBase64 rest 1 v 0
        | 1 => (a2bBase64 rest 2 (v % 16) 0).map (fun bs => (leftchar * 4 + v / 16) :: bs)
        | 2 => (a2bBase64 rest 3 (v % 4) 0).map (fun bs => (leftchar * 16 + v / 4) :: bs)
        | _ => (a2bBase64 rest 0 0 0).map (fun bs => (leftchar * 64 + v) :: bs)

/-- Model of `base64.b64decode` on a str argument: fails on non-ASCII input
(the str cannot be ASCII-encoded), then runs the non-strict decoding loop
`a2bBase64`. -/
def b64decode (s : String) : Option (List ℕ) :=
  if s.data.any (fun c => 128 ≤ c.toNat) then none
  else a2bBase64 s.data 0 0 0

/-- JSON insignificant whitespace. -/
def jsonWs (c : Char) : Bool := c == ' ' || c == '\t' || c == '\n' || c == '\r'

/-- Skip insignificant whitespace. -/
def skipWs (l : List Char) : List Char := l.dropWhile jsonWs

/-- Hexadecimal digit value. -/
def hexVal (c : Char) : Option ℕ :=
  let n := c.toNat
  if 48 ≤ n && n ≤ 57 then some (n - 48)
  else if 97 ≤ n && n ≤ 102 then some (n - 87)
  else if 65 ≤ n && n ≤ 70 then some (n - 55)
  else none

/-- Four hex digits, for `\uXXXX` escapes. -/
def parseHex4 : List Char → Option (ℕ × List Char)
  | a :: b :: c :: d :: rest =>
    match hexVal a, hexVal b, hexVal c, hexVal d with
    | some x, some y, some z, some w => some (x * 4096 + y * 256 + z * 16 + w, rest)
    | _, _, _, _ => none
  | _ => none

/-- Decimal digit test. -/
def isDigitCh (c : Char) : Bool := 48 ≤ c.toNat && c.toNat ≤ 57

/-- Numeric value of a digit string, most significant first. -/
def natOfDigits (l : List Char) : ℕ := l.foldl (fun a c => a * 10 + (c.toNat - 48)) 0

/-- Body of a JSON string after the opening quote, with standard escapes;
`\uXXXX` surrogate pairs combine into one scalar (a lone surrogate, which
Python would keep in its str type, has no Lean representation and is treated
as a decode failure — unreachable for the payloads specified here). -/
def parseStringBody : ℕ → List Char → Option (List Char × List Char)
  | 0, _ => none
  | fuel + 1, l =>
    match l with
    | [] => none
    | c :: rest =>
      if c == '"' then some ([], rest)
      else if c == '\\' then
        match rest with
        | [] => none
        | e :: r2 =>
          if e == 'u' then
            match parseHex4 r2 with
            | none => none
            | some (n, r3) =>
              if 0xD800 ≤ n && n ≤ 0xDBFF then
                match r3 with
                | b1 :: u1 :: r4 =>
                  if b1 == '\\' && u1 == 'u' then
                    match parseHex4 r4 with
                    | some (m, r5) =>
                      if 0xDC00 ≤ m && m ≤ 0xDFFF then
                        (parseStringBody fuel r5).map
                          (fun p => (Char.ofNat (0x10000 + (n - 0xD800) * 1024 + (m - 0xDC00)) :: p.1, p.2))
                      else none
                    | none => none
                  else none
                | _ => none
              else if 0xDC00 ≤ n && n ≤ 0xDFFF then none
              else (parseStringBody fuel r3).map (fun p => (Char.ofNat n :: p.1, p.2))
          else
            let esc : Option Char :=
              if e == '"' then some '"'
              else if e == '\\' then some '\\'
              else if e == '/' then some '/'
              else if e == 'b' then some (Char.ofNat 8)
              else if e == 'f' then some (Char.ofNat 12)
              else if e == 'n' then some '\n'
              else if e == 'r' then some (Char.ofNat 13)
              else if e == 't' then some '\t'
              else none
            match esc with
            | some ch => (parseStringBody fuel r2).map (fun p => (ch :: p.1, p.2))
            | none => none
      else if c.toNat < 32 then none
      else (parseStringBody fuel rest).map (fun p => (c :: p.1, p.2))

/-- A JSON number per the strict grammar used by `json.loads`:
`-? (0 | [1-9][0-9]*) (. [0-9]+)? ([eE] [+-]? [0-9]+)?`, evaluated exactly as
a rational. -/
def parseNumber (l : List Char) : Option (ℚ × List Char) :=
  let (neg, l1) := match l with
    | c :: rest => if c == '-' then (true, rest) else (false, l)
    | [] => (false, l)
  let (ids, l2) := (l1.takeWhile isDigitCh, l1.dropWhile isDigitCh)
  if ids.isEmpty then none
  else if 1 < ids.length && ids.headD ' ' == '0' then none
  else
    let (fds, l3) := match l2 with
      | c :: rest =>
        if c == '.' then (rest.takeWhile isDigitCh, rest.dropWhile isDigitCh)
        else ([], l2)
      | [] => ([], l2)
    let hadPoint := match l2 with
      | c :: _ => c == '.'
      | [] => false
    if hadPoint && fds.isEmpty then none
    else
      let (expPart, l4) : Option (Bool × ℕ) × List Char := match l3 with
        | c :: rest =>
          if c == 'e' || c == 'E' then
            let (esign, r2) := match rest with
              | s :: r3 =>
                if s == '-' then (true, r3)
                else if s == '+' then (false, r3)
                else (false, rest)
              | [] => (false, rest)
            let (eds, r4) := (r2.takeWhile isDigitCh, r2.dropWhile isDigitCh)
            if eds.isEmpty then (none, l)
            else (some (esign, natOfDigits eds), r4)
          else (none, l3)
        | [] => (none, l3)
      let m : ℤ := (natOfDigits (ids ++ fds) : ℤ)
      match l3, expPart with
      | c :: _, none =>
        if c == 'e' || c == 'E' then none
        else
          let mant : ℚ := mkRat m (Nat.pow 10 fds.length)
          some ((if neg then rNeg mant else mant), l4)
      | _, _ =>
        let q : ℚ := match expPart with
          | some (true, e) => mkRat m (Nat.pow 10 (fds.length + e))
          | some (false, e) => mkRat (m * (Nat.pow 10 e : ℕ)) (Nat.pow 10 fds.length)
          | none => mkRat m (Nat.pow 10 fds.length)
        some ((if neg then rNeg q else q), l4)

mutual

/-- Parse one JSON value (leading whitespace allowed), fuelled. -/
def parseVal : ℕ → List Char → Option (JValue × List Char)
  | 0, _ => none
  | fuel + 1, l =>
    match skipWs l with
    | [] => none
    | c :: rest =>
      if c == '"' then
        (parseStringBody (rest.length + 1) rest).map (fun p => (JValue.str ⟨p.1⟩, p.2))
      else if c == '\x7b' then
        match skipWs rest with
        | d :: r2 =>
          if d == '\x7d' then some (JValue.obj [], r2)
          else parseMembers fuel (skipWs rest)
        | [] => none
      else if c == '[' then
        match skipWs rest with
        | d :: r2 =>
          if d == ']' then some (JValue.arr [], r2)
          else parseItems fuel (skipWs rest)
        | [] => none
      else if c == 't' then
        match rest with
        | r1 :: u1 :: e1 :: r2 =>
          if r1 == 'r' && (u1 == 'u' && e1 == 'e') then some (JValue.bool true, r2) else none
        | _ => none
      else if c == 'f' then
        match rest with
        | a1 :: l1 :: s1 :: e1 :: r2 =>
          if a1 == 'a' && (l1 == 'l' && (s1 == 's' && e1 == 'e')) then
            some (JValue.bool false, r2)
          else none
        | _ => none
      else if c == 'n' then
        match rest with
        | u1 :: l1 :: l2 :: r2 =>
          if u1 == 'u' && (l1 == 'l' && l2 == 'l') then some (JValue.null, r2) else none
        | _ => none
      else if c == 'N' then
        match rest with
        | a1 :: n1 :: r2 =>
          if a1 == 'a' && n1 == 'N' then some (JValue.nan, r2) else none
        | _ => none
      else if c == 'I' then
        match rest with
        | n1 :: f1 :: i1 :: n2 :: i2 :: t1 :: y1 :: r2 =>
          if n1 == 'n' && (f1 == 'f' && (i1 == 'i' &&
              (n2 == 'n' && (i2 == 'i' && (t1 == 't' && y1 == 'y'))))) then
            some (JValue.inf, r2)
          else none
        | _ => none
      else if c == '-' then
        match rest with
        | d :: r2 =>
          if d == 'I' then
            match r2 with
            | n1 :: f1 :: i1 :: n2 :: i2 :: t1 :: y1 :: r3 =>
              if n1 == 'n' && (f1 == 'f' && (i1 == 'i' &&
                  (n2 == 'n' && (i2 == 'i' && (t1 == 't' && y1 == 'y'))))) then
                some (JValue.ninf, r3)
              else none
            | _ => none
          else (parseNumber (c :: rest)).map (fun p => (JValue.num p.1, p.2))
        | [] => none
      else
        (parseNumber (c :: rest)).map (fun p => (JValue.num p.1, p.2))

/-- Parse the comma-separated items of a non-empty array, up to `]`. -/
def parseItems : ℕ → List Char → Option (JValue × List Char)
  | 0, _ => none
  | fuel + 1, l =>
    match parseVal fuel l with
    | none => none
    | some (v, r1) =>
      match skipWs r1 with
      | c :: r2 =>
        if c == ']' then some (JValue.arr [v], r2)
        else if c == ',' then
          match parseItems fuel r2 with
          | some (JValue.arr vs, r3) => some (JValue.arr (v :: vs), r3)
          | _ => none
        else none
      | [] => none

/-- Parse the comma-separated members of a non-empty object, up to the
closing brace. -/
def parseMembers : ℕ → List Char → Option (JValue × List Char)
  | 0, _ => none
  | fuel + 1, l =>
    match skipWs l with
    | c :: rest =>
      if c == '"' then
        match parseStringBody (rest.length + 1) rest with
        | none => none
        | some (kcs, r1) =>
          match skipWs r1 with
          | d :: r2 =>
            if d == ':' then
              match parseVal fuel r2 with
              | none => none
              | some (v, r3) =>
                match skipWs r3 with
                | e :: r4 =>
                  if e == '\x7d' then some (JValue.obj [(⟨kcs⟩, v)], r4)
                  else if e == ',' then
                    match parseMembers fuel r4 with
                    | some (JValue.obj ms, r5) => some (JValue.obj (((⟨kcs⟩ : String), v) :: ms), r5)
                    | _ => none
                  else none
                | [] => none
            else none
          | [] => none
      else none
    | [] => none

end

/-- Model of `json.loads`: parse one JSON document with optional surrounding
whitespace; anything left over is an error. -/
def jsonParse (s : String) : Option JValue :=
  match parseVal (2 * s.length + 8) s.data with
  | some (v, rest) => if (skipWs rest).isEmpty then some v else none
  | none => none

/-- One `name`/`value` entry of a section's facts list. -/
structure Fact where
  name : String
  value : String
deriving DecidableEq

/-- One MessageCard section as built by the handler. -/
structure MessageSection where
  activityTitle : String
  activitySubtitle : String
  facts : List Fact
  markdown : Bool
deriving DecidableEq

/-- The outbound Teams payload (`teams_payload` in the source); `atType` and
`atContext` stand for the JSON keys `@type` and `@context`. -/
structure Payload where
  atType : String
  atContext : String
  themeColor : String
  summary : String
  sections : List MessageSection
deriving DecidableEq

/-- Outcome of `requests.post`, supplied by the network oracle: an HTTP
response with a status code, or a raised transport error. -/
inductive NetResult : Type where
  | response : ℕ → NetResult
  | transportError : String → NetResult

/-- Observable behaviour of one handler invocation: the payloads POSTed (in
order), whether an exception was re-raised to the invoking platform, and the
log lines printed. -/
structure HandlerResult where
  posts : List Payload
  raised : Bool
  logs : List String
deriving DecidableEq

/-- The ACTUAL-spend section literal from the source, given the already
rendered name, percent, cost, budget and currency strings. -/
def mkActualSection (nm pct costS budgetS cur : String) : MessageSection :=
  { activityTitle := "**🚨 Budget ALERT (Actual Spend): " ++ nm ++ "**"
    activitySubtitle := "You have spent " ++ pct ++ "% of your budget."
    facts := [
      { name := "Budget Name:", value := nm },
      { name := "Current Cost:", value := costS ++ " " ++ cur },
      { name := "Budget Amount:", value := budgetS ++ " " ++ cur },
      { name := "Triggered Threshold:", value := pct ++ "% (Actual Spend)" }]
    markdown := true }

/-- The FORECASTED-spend section literal from the source. -/
def mkForecastSection (nm pct costS budgetS cur : String) : MessageSection :=
  { activityTitle := "**⚠️ Budget WARNING (Forecasted Spend): " ++ nm ++ "**"
    activitySubtitle := "You are *forecasted* to spend " ++ pct ++ "% of your budget."
    facts := [
      { name := "Budget Name:", value := nm },
      { name := "Current Cost:", value := costS ++ " " ++ cur },
      { name := "Budget Amount:", value := budgetS ++ " " ++ cur },
      { name := "Triggered Threshold:", value := pct ++ "% (Forecasted Spend)" }]
    markdown := true }

/-- The `teams_payload` literal from the source. -/
def mkTeamsPayload (nm : String) (secs : List MessageSection) : Payload :=
  { atType := "MessageCard"
    atContext := "http://schema.org/extensions"
    themeColor := "FF0000"
    summary := "GCP Budget Alert for " ++ nm
    sections := secs }

/-- Steps 1 of the handler (src/main.py lines 45-51): decode the CloudEvent
bytes as UTF-8 JSON, take `["message"]["data"]`, base64-decode it (the value
must be a string, as `b64decode` requires), decode as UTF-8 and parse the
budget message JSON.  Any failure is the exception the `except` block
catches. -/
def decodeEventToMessage (eventData : List ℕ) : Except String JValue :=
  match utf8Decode eventData with
  | none => .error "UnicodeDecodeError: invalid utf-8 in event data"
  | some outerText =>
  match jsonParse outerText with
  | none => .error "json.JSONDecodeError: invalid event JSON"
  | some eventDataDict =>
  match pySubscript eventDataDict "message" with
  | .error e => .error e
  | .ok messageVal =>
  match pySubscript messageVal "data" with
  | .error e => .error e
  | .ok dataVal =>
  match dataVal with
  | .str dataStr =>
    (match b64decode dataStr with
     | none => .error "binascii.Error: invalid base64-encoded string"
     | some innerBytes =>
       match utf8Decode innerBytes with
       | none => .error "UnicodeDecodeError: invalid utf-8 in pubsub data"
       | some innerText =>
         match jsonParse innerText with
         | none => .error "json.JSONDecodeError: invalid budget message JSON"
         | some budgetMessage => .ok budgetMessage)
  | _ => .error "TypeError: argument should be a bytes-like object or ASCII string"

/-- Source lines 66-79: `actual_percent = actual_percent_raw * 100` followed
by the ACTUAL section literal, whose f-strings format the percent, cost and
budget and may raise. -/
def buildActualSection (nm cur : String) (cost budget raw : JValue) :
    Except String MessageSection :=
  match pyMul100 raw with
  | .error e => .error e
  | .ok actualPercent =>
  match pyFormatFixed 0 actualPercent with
  | .error e => .error e
  | .ok pct =>
  match pyFormatFixed 2 cost with
  | .error e => .error e
  | .ok costS =>
  match pyFormatFixed 2 budget with
  | .error e => .error e
  | .ok budgetS => .ok (mkActualSection nm pct costS budgetS cur)

/-- Source lines 82-95: the same for the FORECASTED section. -/
def buildForecastSection (nm cur : String) (cost budget raw : JValue) :
    Except String MessageSection :=
  match pyMul100 raw with
  | .error e => .error e
  | .ok forecastPercent =>
  match pyFormatFixed 0 forecastPercent with
  | .error e => .error e
  | .ok pct =>
  match pyFormatFixed 2 cost with
  | .error e => .error e
  | .ok costS =>
  match pyFormatFixed 2 budget with
  | .error e => .error e
  | .ok budgetS => .ok (mkForecastSection nm pct costS budgetS cur)

/-- Steps 2-4 of the handler (src/main.py lines 54-105): extract the billing
fields with `dict.get` defaults, build the zero, one or two alert sections
guarded by Python truthiness, and — when any section exists — the Teams
payload.  Returns the payload together with the rendered budget name (used by
the `print` before the POST); `none` means no section was triggered and the
function falls through without sending. -/
def handleMessage (budgetMessage : JValue) :
    Except String (Option (Payload × String)) :=
  match pyGet budgetMessage "costAmount" (.num 0) with
  | .error e => .error e
  | .ok cost =>
  match pyGet budgetMessage "budgetAmount" (.num 0) with
  | .error e => .error e
  | .ok budget =>
  match pyGet budgetMessage "currencyCode" (.str "USD") with
  | .error e => .error e
  | .ok currency =>
  match pyGet budgetMessage "budgetDisplayName" (.str "Unnamed Budget") with
  | .error e => .error e
  | .ok nameV =>
  match pyGet budgetMessage "alertThresholdExceeded" .null with
  | .error e => .error e
  | .ok actualRaw =>
  match pyGet budgetMessage "forecastThresholdExceeded" .null with
  | .error e => .error e
  | .ok forecastRaw =>
  let nm := pyStr nameV
  let cur := pyStr currency
  match (if truthy actualRaw then
           (buildActualSection nm cur cost budget actualRaw).map (fun s => [s])
         else .ok []) with
  | .error e => .error e
  | .ok secs1 =>
  match (if truthy forecastRaw then
           (buildForecastSection nm cur cost budget forecastRaw).map (fun s => [s])
         else .ok []) with
  | .error e => .error e
  | .ok secs2 =>
  let alertSections := secs1 ++ secs2
  if alertSections.isEmpty then .ok none
  else .ok (some (mkTeamsPayload nm alertSections, nm))

/-- Predicate of `requests.Response.raise_for_status`: it raises exactly for status codes in
[400, 600): 4xx client errors and 5xx server errors. -/
def raiseForStatus (status : ℕ) : Bool := 400 ≤ status && status < 600

/-- The body of the handler's `try` block, including the POST (src/main.py
lines 42-111).  Returns the POSTs attempted, the log lines printed inside the
block, and `some e` when an exception escaped to the `except` handler. -/
def tryBody (url : String) (eventData : List ℕ) (net : String → Payload → NetResult) :
    List Payload × List String × Option String :=
  match decodeEventToMessage eventData with
  | .error e => ([], [], some e)
  | .ok budgetMessage =>
  match handleMessage budgetMessage with
  | .error e => ([], [], some e)
  | .ok none => ([], [], none)
  | .ok (some (teamsPayload, nm)) =>
    let sendLog := "Sending formatted alert to Teams for budget: " ++ nm
    match net url teamsPayload with
    | .transportError e => ([teamsPayload], [sendLog], some e)
    | .response status =>
      if raiseForStatus status then
        ([teamsPayload], [sendLog],
          some ("requests.exceptions.HTTPError: " ++ toString status ++ " Error for url: " ++ url))
      else
        ([teamsPayload], [sendLog, "Successfully sent alert to Teams."], none)

/-- The log line of the disabled-configuration early return. -/
def disabledLog : String := "ERROR: Teams Webhook URL is not configured. Halting function."

/-- The handler `process_budget_alert` (src/main.py lines 32-115): given the cached
`TEAMS_WEBHOOK_URL` (checked for Python truthiness — `None` and the empty
string both halt), the CloudEvent data bytes and the network oracle, produce
the observable behaviour: POSTs attempted, whether the `except` block
re-raised, and log lines. -/
def process_budget_alert (teamsWebhookUrl : Option String) (eventData : List ℕ)
    (net : String → Payload → NetResult) : HandlerResult :=
  if teamsWebhookUrl.getD "" = "" then
    { posts := [], raised := false, logs := [disabledLog] }
  else
    match tryBody (teamsWebhookUrl.getD "") eventData net with
    | (posts, logs, none) => { posts := posts, raised := false, logs := logs }
    | (posts, logs, some e) =>
      { posts := posts, raised := true,
        logs := logs ++ ["Error processing budget alert: " ++ e] }

/-- The fully-qualified secret-version path built at cold start
(src/main.py line 22). -/
def secretPath (env : String → Option String) : String :=
  "projects/" ++ (env "GCP_PROJECT_ID").getD "" ++ "/secrets/" ++
    (env "SECRET_ID").getD "" ++ "/versions/latest"

/-- The module-level cold-start block (src/main.py lines 12-29): read the two
environment variables (missing or empty is a `ValueError`), fetch the secret
version (the oracle's `.error` covers both client-construction and access
failures), decode it as UTF-8.  Any exception is caught, printed, and leaves
`TEAMS_WEBHOOK_URL = None`.  Returns the resulting URL and the log lines. -/
def initTeamsWebhookUrl (env : String → Option String)
    (accessSecretVersion : String → Except String (List ℕ)) :
    Option String × List String :=
  if (env "GCP_PROJECT_ID").getD "" = "" ∨ (env "SECRET_ID").getD "" = "" then
    (none, ["FATAL: Failed to initialize secrets on cold start: " ++
      "GCP_PROJECT_ID and SECRET_ID environment variables must be set."])
  else
    match accessSecretVersion (secretPath env) with
    | .error e => (none, ["FATAL: Failed to initialize secrets on cold start: " ++ e])
    | .ok data =>
      match utf8Decode data with
      | none => (none, ["FATAL: Failed to initialize secrets on cold start: " ++
          "UnicodeDecodeError: invalid utf-8 in secret payload"])
      | some url => (some url, [])

/-- Byte list of an ASCII string, for writing concrete inbound events. -/
def asciiBytes (s : String) : List ℕ := s.data.map Char.toNat

/-- The rational stored under `k`, or `d` when the key is absent or holds a
non-number — the value a well-typed BudgetMessage supplies to the formatter. -/
def jNumD (kvs : List (String × JValue)) (k : String) (d : ℚ) : ℚ :=
  match alistLookup kvs k with
  | some (.num q) => q
  | _ => d

/-- The string stored under `k`, or `d` when absent or non-string. -/
def jStrD (kvs : List (String × JValue)) (k : String) (d : String) : String :=
  match alistLookup kvs k with
  | some (.str s) => s
  | _ => d

/-- Field is absent or a number — the shape §3 of the spec prescribes for the
numeric BudgetMessage fields. -/
def numOrAbsent (kvs : List (String × JValue)) (k : String) : Bool :=
  match alistLookup kvs k with
  | none => true
  | some (.num _) => true
  | _ => false

/-- Field is absent or a string. -/
def strOrAbsent (kvs : List (String × JValue)) (k : String) : Bool :=
  match alistLookup kvs k with
  | none => true
  | some (.str _) => true
  | _ => false

/-- The spec's §3 BudgetMessage shape, as a predicate on a decoded object:
numeric amounts and thresholds, string currency code and display name, every
field optional. -/
def validBudgetMessage (kvs : List (String × JValue)) : Bool :=
  numOrAbsent kvs "costAmount" && numOrAbsent kvs "budgetAmount" &&
  strOrAbsent kvs "currencyCode" && strOrAbsent kvs "budgetDisplayName" &&
  numOrAbsent kvs "alertThresholdExceeded" && numOrAbsent kvs "forecastThresholdExceeded"

/-- Evaluation of `dict.get` on an object: it succeeds with the stored-or-default value. -/
theorem pyGet_obj (kvs : List (String × JValue)) (k : String) (d : JValue) :
    pyGet (.obj kvs) k d = .ok (jGetD kvs k d) := rfl

/-- Under the numeric shape, `get` with a numeric default yields a number. -/
theorem jGetD_num (kvs : List (String × JValue)) (k : String) (d : ℚ)
    (h : numOrAbsent kvs k = true) :
    jGetD kvs k (.num d) = .num (jNumD kvs k d) := by
  unfold numOrAbsent at h
  unfold jGetD jNumD
  cases hl : alistLookup kvs k with
  | none => simp
  | some v => cases v <;> simp_all

/-- Under the string shape, `get` with a string default yields a string. -/
theorem jGetD_str (kvs : List (String × JValue)) (k : String) (d : String)
    (h : strOrAbsent kvs k = true) :
    jGetD kvs k (.str d) = .str (jStrD kvs k d) := by
  unfold strOrAbsent at h
  unfold jGetD jStrD
  cases hl : alistLookup kvs k with
  | none => simp
  | some v => cases v <;> simp_all

/-- A truthy threshold of numeric shape is a stored non-zero number. -/
theorem truthy_threshold_num (kvs : List (String × JValue)) (k : String)
    (h : numOrAbsent kvs k = true)
    (ht : truthy (jGetD kvs k .null) = true) :
    jGetD kvs k .null = .num (jNumD kvs k 0) ∧ jNumD kvs k 0 ≠ 0 := by
  unfold numOrAbsent at h
  unfold jGetD jNumD at *
  cases hl : alistLookup kvs k with
  | none => rw [hl] at ht; simp [truthy] at ht
  | some v =>
    cases v <;> rw [hl] at ht <;> simp_all [truthy]

/-- A non-zero number is truthy. -/
theorem truthy_num_of_ne (q : ℚ) (h : q ≠ 0) : truthy (.num q) = true := by
  simp [truthy, h]

/-- Building a section from all-numeric inputs succeeds with the formatted
literals. -/
theorem buildActualSection_num (nm cur : String) (c b p : ℚ) :
    buildActualSection nm cur (.num c) (.num b) (.num p) =
      .ok (mkActualSection nm (formatFixedQ 0 (rMul p 100)) (formatFixedQ 2 c)
        (formatFixedQ 2 b) cur) := rfl

/-- Forecast analogue of `buildActualSection_num`. -/
theorem buildForecastSection_num (nm cur : String) (c b p : ℚ) :
    buildForecastSection nm cur (.num c) (.num b) (.num p) =
      .ok (mkForecastSection nm (formatFixedQ 0 (rMul p 100)) (formatFixedQ 2 c)
        (formatFixedQ 2 b) cur) := rfl

/-- Claim C1: for every decoded BudgetMessage in which both
`alertThresholdExceeded` and `forecastThresholdExceeded` are absent or falsy,
the handler constructs no payload (`handleMessage` returns `.ok none`) and the
invocation performs no outbound POST (and, in fact, completes silently). -/
theorem C1_falsy_thresholds_no_payload_no_post
    (url : String) (hurl : url ≠ "") (eventData : List ℕ)
    (net : String → Payload → NetResult) (kvs : List (String × JValue))
    (hdec : decodeEventToMessage eventData = .ok (.obj kvs))
    (hA : truthy (jGetD kvs "alertThresholdExceeded" .null) = false)
    (hF : truthy (jGetD kvs "forecastThresholdExceeded" .null) = false) :
    handleMessage (.obj kvs) = .ok none ∧
    process_budget_alert (some url) eventData net =
      { posts := [], raised := false, logs := [] } := by
  have hmsg : handleMessage (.obj kvs) = .ok none := by
    simp only [handleMessage, pyGet_obj, hA, hF]
    simp
  refine ⟨hmsg, ?_⟩
  simp only [process_budget_alert, Option.getD]
  rw [if_neg hurl]
  simp [tryBody, hdec, hmsg]

/-- Witness for C1 at a concrete event whose inner message is `\x7b\x7d`. -/
theorem C1_falsy_thresholds_witness :
    process_budget_alert (some "https://example.com/hook")
      (asciiBytes "\x7b\"message\": \x7b\"data\": \"e30=\"\x7d\x7d")
      (fun _ _ => .response 200) =
      { posts := [], raised := false, logs := [] } :=
  (C1_falsy_thresholds_no_payload_no_post "https://example.com/hook" (by decide)
    (asciiBytes "\x7b\"message\": \x7b\"data\": \"e30=\"\x7d\x7d")
    (fun _ _ => .response 200) [] rfl rfl rfl).2

/-- Leniency checks for the modelled base64 decoder, agreeing with CPython:
data after a completed padding sequence is ignored, a stray pad at quad
position 0 is discarded, while input ending mid-quad still fails; an event
whose `data` is "e30=====" therefore decodes to the empty budget message
rather than raising. -/
theorem b64decode_lenient_cases :
    b64decode "e30=====" = some [123, 125] ∧
    b64decode "=QUJD" = some [65, 66, 67] ∧
    b64decode "QQ==Zm9v" = some [65] ∧
    b64decode "AA=" = none ∧
    b64decode "A" = none ∧
    decodeEventToMessage
      (asciiBytes "\x7b\"message\": \x7b\"data\": \"e30=====\"\x7d\x7d") =
      .ok (.obj []) :=
  ⟨rfl, rfl, rfl, rfl, rfl, rfl⟩

/-- The modelled `json.loads` accepts the non-standard `NaN`/`Infinity`
literals, and an `Infinity` threshold flows through the handler into an
"inf%" section — it is not a decode error. -/
theorem jsonParse_special_floats :
    jsonParse "NaN" = some .nan ∧
    jsonParse "-Infinity" = some .ninf ∧
    handleMessage (.obj [("alertThresholdExceeded", JValue.inf)]) =
      .ok (some (mkTeamsPayload "Unnamed Budget"
        [mkActualSection "Unnamed Budget" "inf" "0.00" "0.00" "USD"],
        "Unnamed Budget")) :=
  ⟨rfl, rfl, rfl⟩

/-- Claim C3: whenever the event payload is malformed — the decode pipeline
fails at any stage — and the configuration is resolved, the handler logs the
error, re-raises to the platform, and POSTs nothing. -/
theorem C3_malformed_event_logged_raised_no_post
    (url : String) (hurl : url ≠ "") (eventData : List ℕ)
    (net : String → Payload → NetResult) (e : String)
    (hdec : decodeEventToMessage eventData = .error e) :
    process_budget_alert (some url) eventData net =
      { posts := [], raised := true,
        logs := ["Error processing budget alert: " ++ e] } := by
  simp only [process_budget_alert, Option.getD]
  rw [if_neg hurl]
  simp [tryBody, hdec]

/-- Witness for C3 at a concrete malformed event (a lone 0xFF byte is not
UTF-8). -/
theorem C3_malformed_event_witness :
    process_budget_alert (some "https://example.com/hook") [255]
      (fun _ _ => .response 200) =
      { posts := [], raised := true,
        logs := ["Error processing budget alert: " ++
          "UnicodeDecodeError: invalid utf-8 in event data"] } :=
  C3_malformed_event_logged_raised_no_post "https://example.com/hook" (by decide)
    [255] (fun _ _ => .response 200)
    "UnicodeDecodeError: invalid utf-8 in event data" rfl

/-- Claim C2: for every decoded BudgetMessage of the specified shape, the
sections list contains the Actual-Spend section exactly when
`alertThresholdExceeded` is truthy and the Forecasted-Spend section exactly
when `forecastThresholdExceeded` is truthy, with the actual section first:
the handler result equals the conditional two-section list literally, so only
the actual section appears when only the alert threshold is truthy, and both
appear — actual before forecast — when both are. -/
theorem C2_sections_match_thresholds
    (kvs : List (String × JValue)) (h : validBudgetMessage kvs = true) :
    handleMessage (.obj kvs) = .ok (
      if truthy (jGetD kvs "alertThresholdExceeded" .null) ||
         truthy (jGetD kvs "forecastThresholdExceeded" .null) then
        some (mkTeamsPayload (jStrD kvs "budgetDisplayName" "Unnamed Budget")
          ((if truthy (jGetD kvs "alertThresholdExceeded" .null) then
              [mkActualSection (jStrD kvs "budgetDisplayName" "Unnamed Budget")
                (formatFixedQ 0 (rMul (jNumD kvs "alertThresholdExceeded" 0) 100))
                (formatFixedQ 2 (jNumD kvs "costAmount" 0))
                (formatFixedQ 2 (jNumD kvs "budgetAmount" 0))
                (jStrD kvs "currencyCode" "USD")]
            else []) ++
           (if truthy (jGetD kvs "forecastThresholdExceeded" .null) then
              [mkForecastSection (jStrD kvs "budgetDisplayName" "Unnamed Budget")
                (formatFixedQ 0 (rMul (jNumD kvs "forecastThresholdExceeded" 0) 100))
                (formatFixedQ 2 (jNumD kvs "costAmount" 0))
                (formatFixedQ 2 (jNumD kvs "budgetAmount" 0))
                (jStrD kvs "currencyCode" "USD")]
            else [])),
          jStrD kvs "budgetDisplayName" "Unnamed Budget")
      else none) := by
  have hv := h
  simp only [validBudgetMessage, Bool.and_eq_true] at hv
  obtain ⟨⟨⟨⟨⟨h1, h2⟩, h3⟩, h4⟩, h5⟩, h6⟩ := hv
  cases hA : truthy (jGetD kvs "alertThresholdExceeded" JValue.null) <;>
    cases hF : truthy (jGetD kvs "forecastThresholdExceeded" JValue.null)
  · simp only [handleMessage, pyGet_obj,
      jGetD_num kvs "costAmount" 0 h1, jGetD_num kvs "budgetAmount" 0 h2,
      jGetD_str kvs "currencyCode" "USD" h3,
      jGetD_str kvs "budgetDisplayName" "Unnamed Budget" h4, hA, hF]
    simp [pyStr]
  · simp only [handleMessage, pyGet_obj,
      jGetD_num kvs "costAmount" 0 h1, jGetD_num kvs "budgetAmount" 0 h2,
      jGetD_str kvs "currencyCode" "USD" h3,
      jGetD_str kvs "budgetDisplayName" "Unnamed Budget" h4, hA, hF,
      (truthy_threshold_num kvs "forecastThresholdExceeded" h6 hF).1,
      buildForecastSection_num]
    simp [pyStr, Except.map, truthy_num_of_ne _ (truthy_threshold_num kvs "forecastThresholdExceeded" h6 hF).2]
  · simp only [handleMessage, pyGet_obj,
      jGetD_num kvs "costAmount" 0 h1, jGetD_num kvs "budgetAmount" 0 h2,
      jGetD_str kvs "currencyCode" "USD" h3,
      jGetD_str kvs "budgetDisplayName" "Unnamed Budget" h4, hA, hF,
      (truthy_threshold_num kvs "alertThresholdExceeded" h5 hA).1,
      buildActualSection_num]
    simp [pyStr, Except.map, truthy_num_of_ne _ (truthy_threshold_num kvs "alertThresholdExceeded" h5 hA).2]
  · simp only [handleMessage, pyGet_obj,
      jGetD_num kvs "costAmount" 0 h1, jGetD_num kvs "budgetAmount" 0 h2,
      jGetD_str kvs "currencyCode" "USD" h3,
      jGetD_str kvs "budgetDisplayName" "Unnamed Budget" h4, hA, hF,
      (truthy_threshold_num kvs "alertThresholdExceeded" h5 hA).1,
      (truthy_threshold_num kvs "forecastThresholdExceeded" h6 hF).1,
      buildActualSection_num, buildForecastSection_num]
    simp [pyStr, Except.map, truthy_num_of_ne _ (truthy_threshold_num kvs "alertThresholdExceeded" h5 hA).2,
      truthy_num_of_ne _ (truthy_threshold_num kvs "forecastThresholdExceeded" h6 hF).2]

/-- Witness for C2 at a concrete message with both thresholds truthy: two
sections, actual before forecast. -/
theorem C2_sections_witness :
    handleMessage (.obj [("alertThresholdExceeded", .num (mkRat 3 4)),
        ("forecastThresholdExceeded", .num (mkRat 9 10))]) =
      .ok (some (mkTeamsPayload "Unnamed Budget"
        [mkActualSection "Unnamed Budget" "75" "0.00" "0.00" "USD",
         mkForecastSection "Unnamed Budget" "90" "0.00" "0.00" "USD"],
        "Unnamed Budget")) := by
  have h := C2_sections_match_thresholds
    [("alertThresholdExceeded", .num (mkRat 3 4)),
     ("forecastThresholdExceeded", .num (mkRat 9 10))]
    (by decide)
  exact h.trans rfl

/-- Claim C4: if configuration resolution fails at cold start for any of the
spec's reasons — missing or empty project/secret identifier, secret-store
access failure, or UTF-8 decode failure — the failure is caught and logged
(never propagated: `initTeamsWebhookUrl` is total), the webhook URL is left
absent, and every subsequent invocation, whatever its event, is a no-op that
POSTs nothing and raises nothing. -/
theorem C4_config_failure_disables_handler
    (env : String → Option String) (store : String → Except String (List ℕ))
    (eventData : List ℕ) (net : String → Payload → NetResult)
    (hfail : (env "GCP_PROJECT_ID").getD "" = "" ∨ (env "SECRET_ID").getD "" = "" ∨
      (∃ e, store (secretPath env) = .error e) ∨
      (∃ bs, store (secretPath env) = .ok bs ∧ utf8Decode bs = none)) :
    (initTeamsWebhookUrl env store).1 = none ∧
    (initTeamsWebhookUrl env store).2 ≠ [] ∧
    process_budget_alert (initTeamsWebhookUrl env store).1 eventData net =
      { posts := [], raised := false, logs := [disabledLog] } := by
  have hinit : (initTeamsWebhookUrl env store).1 = none ∧
      (initTeamsWebhookUrl env store).2 ≠ [] := by
    unfold initTeamsWebhookUrl
    rcases hfail with h | h | ⟨e, he⟩ | ⟨bs, hbs, hdec⟩
    · rw [if_pos (Or.inl h)]; exact ⟨rfl, by simp⟩
    · rw [if_pos (Or.inr h)]; exact ⟨rfl, by simp⟩
    · by_cases hp : (env "GCP_PROJECT_ID").getD "" = "" ∨ (env "SECRET_ID").getD "" = ""
      · rw [if_pos hp]; exact ⟨rfl, by simp⟩
      · rw [if_neg hp, he]; exact ⟨rfl, by simp⟩
    · by_cases hp : (env "GCP_PROJECT_ID").getD "" = "" ∨ (env "SECRET_ID").getD "" = ""
      · rw [if_pos hp]; exact ⟨rfl, by simp⟩
      · rw [if_neg hp, hbs]; simp [hdec]
  refine ⟨hinit.1, hinit.2, ?_⟩
  rw [hinit.1]
  simp [process_budget_alert]

/-- Witness for C4: no environment variables at all, a failing secret store,
an arbitrary event. -/
theorem C4_config_failure_witness :
    (initTeamsWebhookUrl (fun _ => none) (fun _ => .error "PermissionDenied")).1 = none ∧
    (initTeamsWebhookUrl (fun _ => none) (fun _ => .error "PermissionDenied")).2 ≠ [] ∧
    process_budget_alert
      (initTeamsWebhookUrl (fun _ => none) (fun _ => .error "PermissionDenied")).1
      [255] (fun _ _ => .response 200) =
      { posts := [], raised := false, logs := [disabledLog] } :=
  C4_config_failure_disables_handler (fun _ => none) (fun _ => .error "PermissionDenied")
    [255] (fun _ _ => .response 200) (Or.inl rfl)

/-- A concrete inbound event whose inner message is
`\x7b"alertThresholdExceeded": 0.5\x7d`. -/
def halfAlertEvent : List ℕ :=
  asciiBytes "\x7b\"message\": \x7b\"data\": \"eyJhbGVydFRocmVzaG9sZEV4Y2VlZGVkIjogMC41fQ==\"\x7d\x7d"

/-- The payload the handler builds for `halfAlertEvent`. -/
def halfAlertPayload : Payload :=
  mkTeamsPayload "Unnamed Budget"
    [mkActualSection "Unnamed Budget" "50" "0.00" "0.00" "USD"]

/-- Counterexample to C5 as stated: a 304 response is not a 2xx, yet the
handler — having attempted the POST — raises nothing and logs success,
because `requests.raise_for_status` only raises for status codes in
[400, 600).  So "any non-2xx response is treated as a handler failure" is
false on the code. -/
theorem C5_non2xx_success_counterexample :
    process_budget_alert (some "https://example.com/hook") halfAlertEvent
        (fun _ _ => .response 304) =
      { posts := [halfAlertPayload], raised := false,
        logs := ["Sending formatted alert to Teams for budget: Unnamed Budget",
          "Successfully sent alert to Teams."] } ∧
    ¬ (200 ≤ 304 ∧ 304 < 300) := ⟨rfl, by decide⟩

/-- Claim C5 (amended): on every invocation in which the POST is attempted,
a network/transport error or an HTTP response with status in [400, 600) —
every 4xx or 5xx — is a handler failure, logged and re-raised; any other
response status, in particular every 2xx, is delivery success and raises
nothing. -/
theorem C5_delivery_outcomes
    (url : String) (hurl : url ≠ "") (eventData : List ℕ)
    (net : String → Payload → NetResult)
    (payload : Payload) (nm : String) (msg : JValue)
    (hdec : decodeEventToMessage eventData = .ok msg)
    (hmsg : handleMessage msg = .ok (some (payload, nm))) :
    process_budget_alert (some url) eventData net =
      match net url payload with
      | .response status =>
        if 400 ≤ status && status < 600 then
          { posts := [payload], raised := true,
            logs := ["Sending formatted alert to Teams for budget: " ++ nm,
              "Error processing budget alert: " ++
                ("requests.exceptions.HTTPError: " ++ toString status ++
                  " Error for url: " ++ url)] }
        else
          { posts := [payload], raised := false,
            logs := ["Sending formatted alert to Teams for budget: " ++ nm,
              "Successfully sent alert to Teams."] }
      | .transportError e =>
        { posts := [payload], raised := true,
          logs := ["Sending formatted alert to Teams for budget: " ++ nm,
            "Error processing budget alert: " ++ e] } := by
  simp only [process_budget_alert, Option.getD]
  rw [if_neg hurl]
  simp only [tryBody, hdec, hmsg, raiseForStatus]
  cases net url payload with
  | response status =>
    by_cases hs : (400 ≤ status && status < 600) = true
    · simp [hs]
    · simp [hs]
  | transportError e => simp

/-- Witness for the amended C5: a 500 response on a concrete run is logged
and re-raised, with the POST having been attempted. -/
theorem C5_delivery_outcomes_witness :
    process_budget_alert (some "https://example.com/hook") halfAlertEvent
        (fun _ _ => .response 500) =
      { posts := [halfAlertPayload], raised := true,
        logs := ["Sending formatted alert to Teams for budget: Unnamed Budget",
          "Error processing budget alert: requests.exceptions.HTTPError: " ++
            "500 Error for url: https://example.com/hook"] } := by
  have h := C5_delivery_outcomes "https://example.com/hook" (by decide) halfAlertEvent
    (fun _ _ => .response 500) halfAlertPayload "Unnamed Budget"
    (.obj [("alertThresholdExceeded", .num (mkRat 1 2))]) rfl rfl
  exact h.trans rfl

/-- Claim C6: percent formatting is deterministic and equals value × 100
rendered with zero decimal places plus a trailing percent sign: threshold
0.853 produces "85%" and 1.2 produces "120%", both in the section subtitle
and in the Triggered Threshold fact. -/
theorem C6_percent_formatting :
    (handleMessage (.obj [("alertThresholdExceeded", .num (mkRat 853 1000))]) =
      .ok (some (mkTeamsPayload "Unnamed Budget"
        [mkActualSection "Unnamed Budget" "85" "0.00" "0.00" "USD"], "Unnamed Budget"))) ∧
    (mkActualSection "Unnamed Budget" "85" "0.00" "0.00" "USD").activitySubtitle =
      "You have spent 85% of your budget." ∧
    ((mkActualSection "Unnamed Budget" "85" "0.00" "0.00" "USD").facts.getLast?).map
        Fact.value = some "85% (Actual Spend)" ∧
    (handleMessage (.obj [("alertThresholdExceeded", .num (mkRat 6 5))]) =
      .ok (some (mkTeamsPayload "Unnamed Budget"
        [mkActualSection "Unnamed Budget" "120" "0.00" "0.00" "USD"], "Unnamed Budget"))) ∧
    (mkActualSection "Unnamed Budget" "120" "0.00" "0.00" "USD").activitySubtitle =
      "You have spent 120% of your budget." ∧
    ((mkActualSection "Unnamed Budget" "120" "0.00" "0.00" "USD").facts.getLast?).map
        Fact.value = some "120% (Actual Spend)" :=
  ⟨rfl, rfl, rfl, rfl, rfl, rfl⟩

/-- Claim C7: currency amounts are formatted with two decimals, thousands
separators and the currency code as suffix: cost 1234.5 in USD appears as
"1,234.50 USD" (and budgetAmount gets the same formatting). -/
theorem C7_currency_formatting :
    handleMessage (.obj [("costAmount", .num (mkRat 12345 10)),
        ("budgetAmount", .num (mkRat 12345 10)), ("currencyCode", .str "USD"),
        ("alertThresholdExceeded", .num 1)]) =
      .ok (some (mkTeamsPayload "Unnamed Budget"
        [mkActualSection "Unnamed Budget" "100" "1,234.50" "1,234.50" "USD"],
        "Unnamed Budget")) ∧
    (mkActualSection "Unnamed Budget" "100" "1,234.50" "1,234.50" "USD").facts[1]? =
      some { name := "Current Cost:", value := "1,234.50 USD" } ∧
    (mkActualSection "Unnamed Budget" "100" "1,234.50" "1,234.50" "USD").facts[2]? =
      some { name := "Budget Amount:", value := "1,234.50 USD" } :=
  ⟨rfl, rfl, rfl⟩

/-- Claim C8: absent fields take the documented defaults — costAmount 0,
budgetAmount 0, currencyCode "USD", budgetDisplayName "Unnamed Budget" — in
the produced payload, while a threshold has no default: here only
`alertThresholdExceeded` is present (non-zero), all other fields absent, and
the payload carries exactly the default-derived strings. -/
theorem handleMessage_defaults_only_alert
    (kvs : List (String × JValue))
    (hc : alistLookup kvs "costAmount" = none)
    (hb : alistLookup kvs "budgetAmount" = none)
    (hcur : alistLookup kvs "currencyCode" = none)
    (hn : alistLookup kvs "budgetDisplayName" = none)
    (p : ℚ) (hA : alistLookup kvs "alertThresholdExceeded" = some (.num p))
    (hp : p ≠ 0)
    (hF : truthy (jGetD kvs "forecastThresholdExceeded" .null) = false) :
    handleMessage (.obj kvs) =
      .ok (some (mkTeamsPayload "Unnamed Budget"
        [mkActualSection "Unnamed Budget" (formatFixedQ 0 (rMul p 100))
          (formatFixedQ 2 0) (formatFixedQ 2 0) "USD"], "Unnamed Budget")) := by
  have hgc : jGetD kvs "costAmount" (.num 0) = .num 0 := by simp [jGetD, hc]
  have hgb : jGetD kvs "budgetAmount" (.num 0) = .num 0 := by simp [jGetD, hb]
  have hgcur : jGetD kvs "currencyCode" (.str "USD") = .str "USD" := by
    simp [jGetD, hcur]
  have hgn : jGetD kvs "budgetDisplayName" (.str "Unnamed Budget") =
      .str "Unnamed Budget" := by simp [jGetD, hn]
  have hga : jGetD kvs "alertThresholdExceeded" .null = .num p := by
    simp [jGetD, hA]
  simp only [handleMessage, pyGet_obj, hgc, hgb, hgcur, hgn, hga, hF,
    truthy_num_of_ne p hp, buildActualSection_num]
  simp [pyStr, Except.map]

/-- Claim C8: absent fields take the documented defaults — costAmount 0,
budgetAmount 0, currencyCode "USD", budgetDisplayName "Unnamed Budget" — in
the produced payload, rendering as "0.00", "0.00 USD" amounts and the
"Unnamed Budget" name/summary; the thresholds have no default (an absent one
simply contributes no section). -/
theorem C8_missing_fields_take_defaults
    (kvs : List (String × JValue))
    (hc : alistLookup kvs "costAmount" = none)
    (hb : alistLookup kvs "budgetAmount" = none)
    (hcur : alistLookup kvs "currencyCode" = none)
    (hn : alistLookup kvs "budgetDisplayName" = none)
    (p : ℚ) (hA : alistLookup kvs "alertThresholdExceeded" = some (.num p))
    (hp : p ≠ 0)
    (hF : truthy (jGetD kvs "forecastThresholdExceeded" .null) = false) :
    handleMessage (.obj kvs) =
      .ok (some (mkTeamsPayload "Unnamed Budget"
        [mkActualSection "Unnamed Budget" (formatFixedQ 0 (rMul p 100))
          (formatFixedQ 2 0) (formatFixedQ 2 0) "USD"], "Unnamed Budget")) :=
  handleMessage_defaults_only_alert kvs hc hb hcur hn p hA hp hF

/-- Witness for C8: a message carrying only a 0.5 alert threshold produces
the all-defaults payload. -/
theorem C8_missing_fields_witness :
    handleMessage (.obj [("alertThresholdExceeded", .num (mkRat 1 2))]) =
      .ok (some (mkTeamsPayload "Unnamed Budget"
        [mkActualSection "Unnamed Budget" "50" "0.00" "0.00" "USD"],
        "Unnamed Budget")) := by
  have h := C8_missing_fields_take_defaults
    [("alertThresholdExceeded", .num (mkRat 1 2))] rfl rfl rfl rfl
    (mkRat 1 2) rfl (by decide) rfl
  exact h.trans rfl

/-- Claim C9: the handler performs no range validation on thresholds — any
non-zero numeric value, including negatives and values above 1, still yields
its section, whose percent strings are exactly value × 100 under the fixed
formatter. -/
theorem C9_no_range_validation (q : ℚ) (hq : q ≠ 0) :
    handleMessage (.obj [("alertThresholdExceeded", .num q)]) =
      .ok (some (mkTeamsPayload "Unnamed Budget"
        [mkActualSection "Unnamed Budget" (formatFixedQ 0 (rMul q 100))
          (formatFixedQ 2 0) (formatFixedQ 2 0) "USD"], "Unnamed Budget")) := by
  exact handleMessage_defaults_only_alert [("alertThresholdExceeded", .num q)]
    rfl rfl rfl rfl q rfl hq rfl

/-- Witness for C9 at the out-of-range threshold -0.5: a section is still
produced and displays "-50%". -/
theorem C9_no_range_validation_witness :
    handleMessage (.obj [("alertThresholdExceeded", .num (mkRat (-1) 2))]) =
      .ok (some (mkTeamsPayload "Unnamed Budget"
        [mkActualSection "Unnamed Budget" "-50" "0.00" "0.00" "USD"],
        "Unnamed Budget")) ∧
    (mkActualSection "Unnamed Budget" "-50" "0.00" "0.00" "USD").activitySubtitle =
      "You have spent -50% of your budget." := by
  have h := C9_no_range_validation (mkRat (-1) 2) (by decide)
  exact ⟨h.trans rfl, rfl⟩

/-- Formatting a value the `f` spec rejects always raises. -/
theorem pyFormatFixed_not_numeric (d : ℕ) (v : JValue) (h : pyNumeric v = false) :
    ∃ e, pyFormatFixed d v = .error e := by
  cases v <;> first | exact ⟨_, rfl⟩ | simp_all [pyNumeric]

/-- A non-numeric costAmount or budgetAmount always makes the actual-section
construction raise, whatever the threshold value was: the percent formatting
fails first, or the cost formatting, or the budget formatting. -/
theorem buildActualSection_bad_amount (nm cur : String) (cost budget raw : JValue)
    (h : pyNumeric cost = false ∨ pyNumeric budget = false) :
    ∃ e, buildActualSection nm cur cost budget raw = .error e := by
  cases hm : pyMul100 raw with
  | error e => exact ⟨e, by simp [buildActualSection, hm]⟩
  | ok p =>
    cases hp : pyFormatFixed 0 p with
    | error e => exact ⟨e, by simp [buildActualSection, hm, hp]⟩
    | ok s0 =>
      rcases h with h | h
      · obtain ⟨e, he⟩ := pyFormatFixed_not_numeric 2 cost h
        exact ⟨e, by simp [buildActualSection, hm, hp, he]⟩
      · cases hc : pyFormatFixed 2 cost with
        | error e => exact ⟨e, by simp [buildActualSection, hm, hp, hc]⟩
        | ok s1 =>
          obtain ⟨e, he⟩ := pyFormatFixed_not_numeric 2 budget h
          exact ⟨e, by simp [buildActualSection, hm, hp, hc, he]⟩

/-- Forecast analogue of `buildActualSection_bad_amount`. -/
theorem buildForecastSection_bad_amount (nm cur : String) (cost budget raw : JValue)
    (h : pyNumeric cost = false ∨ pyNumeric budget = false) :
    ∃ e, buildForecastSection nm cur cost budget raw = .error e := by
  cases hm : pyMul100 raw with
  | error e => exact ⟨e, by simp [buildForecastSection, hm]⟩
  | ok p =>
    cases hp : pyFormatFixed 0 p with
    | error e => exact ⟨e, by simp [buildForecastSection, hm, hp]⟩
    | ok s0 =>
      rcases h with h | h
      · obtain ⟨e, he⟩ := pyFormatFixed_not_numeric 2 cost h
        exact ⟨e, by simp [buildForecastSection, hm, hp, he]⟩
      · cases hc : pyFormatFixed 2 cost with
        | error e => exact ⟨e, by simp [buildForecastSection, hm, hp, hc]⟩
        | ok s1 =>
          obtain ⟨e, he⟩ := pyFormatFixed_not_numeric 2 budget h
          exact ⟨e, by simp [buildForecastSection, hm, hp, hc, he]⟩

/-- Claim C10: a decoded BudgetMessage with a truthy threshold but a
non-numeric costAmount or budgetAmount (a string, or any other value the
`,.2f` format spec rejects) makes the handler raise during section
formatting — before any POST is attempted — and the exception is logged and
re-raised to the platform: the invocation ends with no posts,
`raised = true`, and the error log line. -/
theorem C10_nonnumeric_amount_raises_before_post
    (url : String) (hurl : url ≠ "") (eventData : List ℕ)
    (net : String → Payload → NetResult) (kvs : List (String × JValue))
    (hdec : decodeEventToMessage eventData = .ok (.obj kvs))
    (hbad : (∃ v, alistLookup kvs "costAmount" = some v ∧ pyNumeric v = false) ∨
            (∃ v, alistLookup kvs "budgetAmount" = some v ∧ pyNumeric v = false))
    (hthr : truthy (jGetD kvs "alertThresholdExceeded" .null) = true ∨
            truthy (jGetD kvs "forecastThresholdExceeded" .null) = true) :
    (∃ e, handleMessage (.obj kvs) = .error e) ∧
    ∃ e, process_budget_alert (some url) eventData net =
      { posts := [], raised := true,
        logs := ["Error processing budget alert: " ++ e] } := by
  have hnum : pyNumeric (jGetD kvs "costAmount" (.num 0)) = false ∨
      pyNumeric (jGetD kvs "budgetAmount" (.num 0)) = false := by
    rcases hbad with ⟨v, hv, hnv⟩ | ⟨v, hv, hnv⟩
    · left; simpa [jGetD, hv] using hnv
    · right; simpa [jGetD, hv] using hnv
  have herr : ∃ e, handleMessage (.obj kvs) = .error e := by
    cases hA : truthy (jGetD kvs "alertThresholdExceeded" JValue.null) with
    | true =>
      obtain ⟨e, he⟩ := buildActualSection_bad_amount
        (pyStr (jGetD kvs "budgetDisplayName" (.str "Unnamed Budget")))
        (pyStr (jGetD kvs "currencyCode" (.str "USD")))
        (jGetD kvs "costAmount" (.num 0)) (jGetD kvs "budgetAmount" (.num 0))
        (jGetD kvs "alertThresholdExceeded" .null) hnum
      refine ⟨e, ?_⟩
      simp only [handleMessage, pyGet_obj, hA, he]
      simp [Except.map]
    | false =>
      have hF : truthy (jGetD kvs "forecastThresholdExceeded" .null) = true := by
        rcases hthr with h | h
        · simp [hA] at h
        · exact h
      obtain ⟨e, he⟩ := buildForecastSection_bad_amount
        (pyStr (jGetD kvs "budgetDisplayName" (.str "Unnamed Budget")))
        (pyStr (jGetD kvs "currencyCode" (.str "USD")))
        (jGetD kvs "costAmount" (.num 0)) (jGetD kvs "budgetAmount" (.num 0))
        (jGetD kvs "forecastThresholdExceeded" .null) hnum
      refine ⟨e, ?_⟩
      simp only [handleMessage, pyGet_obj, hA, hF, he]
      simp [Except.map]
  obtain ⟨e, he⟩ := herr
  refine ⟨⟨e, he⟩, e, ?_⟩
  simp only [process_budget_alert, Option.getD]
  rw [if_neg hurl]
  simp [tryBody, hdec, he]

set_option maxRecDepth 4000 in
/-- Witness for C10, exercising the budgetAmount disjunct: a concrete event
whose inner message is
`\x7b"budgetAmount": "oops", "alertThresholdExceeded": 0.5\x7d`. -/
theorem C10_nonnumeric_amount_witness :
    (∃ e, handleMessage (.obj [("budgetAmount", .str "oops"),
      ("alertThresholdExceeded", .num (mkRat 1 2))]) = .error e) ∧
    ∃ e, process_budget_alert (some "https://example.com/hook")
      (asciiBytes ("\x7b\"message\": \x7b\"data\": " ++
        "\"eyJidWRnZXRBbW91bnQiOiAib29wcyIsICJhbGVydFRocmVzaG9sZEV4Y2VlZGVkIjogMC41fQ==\"\x7d\x7d"))
      (fun _ _ => .response 200) =
      { posts := [], raised := true,
        logs := ["Error processing budget alert: " ++ e] } :=
  C10_nonnumeric_amount_raises_before_post "https://example.com/hook" (by decide)
    (asciiBytes ("\x7b\"message\": \x7b\"data\": " ++
      "\"eyJidWRnZXRBbW91bnQiOiAib29wcyIsICJhbGVydFRocmVzaG9sZEV4Y2VlZGVkIjogMC41fQ==\"\x7d\x7d"))
    (fun _ _ => .response 200)
    [("budgetAmount", .str "oops"), ("alertThresholdExceeded", .num (mkRat 1 2))]
    rfl (Or.inr ⟨.str "oops", rfl, rfl⟩) (Or.inl rfl)

end BudgetAlert
